import Mathlib

/-!
Shallow embedding of the table-to-CSV export core of
insights-results-aggregator-exporter (files storage.go, csv.go, types.go),
with theorems checking the natural-language specification against it.

The database, the minio object store and the filesystem are modelled as
explicit inputs (query oracles, error injection points); the Go functions
are translated one-to-one, keeping their names and branch structure.
-/

set_option autoImplicit false

namespace Exporter

/-! ## Data model (types.go) -/

/-- `TableName` type represents table name (types.go). -/
abbrev TableName := String

/-- `DisabledRuleInfo` contains information about rules disabled by user
(types.go): fields `Rule string`, `Count int`. -/
structure DisabledRuleInfo where
  rule : String
  count : Int

/-- One entry of the `[]*sql.ColumnType` slice the driver reports for a result
set: its `Name()` and `DatabaseTypeName()` (the only two methods the source
calls on it). -/
structure ColumnType where
  name : String
  databaseTypeName : String

/-- The holder type `fillInScanArgs` (storage.go) allocates for one column:
`*sql.NullString`, `*sql.NullBool` or `*sql.NullInt64`. -/
inductive ScanKind where
  | nullString
  | nullBool
  | nullInt64
deriving DecidableEq

/-- The state of one allocated scan holder: the `Valid` flag plus the typed
payload, exactly as in `sql.NullString` / `sql.NullBool` / `sql.NullInt64`.
`fillInMasterData` in the source also has branches for `*sql.NullFloat64` and
`*sql.NullInt32` and a final raw fallback; `fillInScanArgs`, the only producer
of scan arguments in the program, never allocates those holder types, so those
branches are dead on every input the program builds and are not modelled. -/
inductive ScanValue where
  | nullString (valid : Bool) (string : String)
  | nullBool (valid : Bool) (bool : Bool)
  | nullInt64 (valid : Bool) (int64 : Int)
deriving DecidableEq

/-- The holder type of a scan value (the Go dynamic type of the slot). -/
def ScanValue.kind : ScanValue → ScanKind
  | .nullString _ _ => .nullString
  | .nullBool _ _ => .nullBool
  | .nullInt64 _ _ => .nullInt64

/-- The dynamic value `fillInMasterData` stores into the row map: the payload
read out of the holder (`z.Bool`, `z.String`, `z.Int64`), with its Go dynamic
type. -/
inductive Value where
  | vBool (b : Bool)
  | vString (s : String)
  | vInt64 (i : Int)
deriving DecidableEq

/-- `M` represents a map with string keys and any value (types.go). A Go map
is modelled as the list of insertions in loop order; lookup is last-write-wins
(`mLookup`). -/
abbrev M := List (String × Value)

/-- Lookup in an `M` map with Go map semantics: a later insertion of the same
key overwrites an earlier one. -/
def mLookup : M → String → Option Value
  | [], _ => none
  | (k, v) :: rest, key =>
    match mLookup rest key with
    | some v2 => some v2
    | none => if k = key then some v else none

/-! ## Type-mapping layer (storage.go, `fillInScanArgs`) -/

/-- The `switch v.DatabaseTypeName()` of `fillInScanArgs` (storage.go 241-261),
as a function from the database type name to the holder kind allocated for the
column.  The `switch` checks its cases in order; `default` is the
`sql.NullString` fallback. -/
def scanKindFor (databaseTypeName : String) : ScanKind :=
  if databaseTypeName = "VARCHAR" then .nullString
  else if databaseTypeName = "TEXT" then .nullString
  else if databaseTypeName = "UUID" then .nullString
  else if databaseTypeName = "TIMESTAMP" then .nullString
  else if databaseTypeName = "BOOL" then .nullBool
  else if databaseTypeName = "INT4" then .nullInt64
  else .nullString

/-- A freshly allocated holder (`new(sql.NullString)` etc.): the Go zero value
of the struct, `Valid = false` and zero payload. -/
def nullSlot : ScanKind → ScanValue
  | .nullString => .nullString false ""
  | .nullBool => .nullBool false false
  | .nullInt64 => .nullInt64 false 0

/-- `fillInScanArgs` (storage.go): prepares arguments for the `Scan` method,
allocating one fresh nullable holder per column according to the column's
database type name. -/
def fillInScanArgs (columnTypes : List ColumnType) : List ScanValue :=
  columnTypes.map (fun v => nullSlot (scanKindFor v.databaseTypeName))

/-! ## Row decoding (storage.go, `fillInMasterData`) -/

/-- The body of the type-switch chain of `fillInMasterData` for one slot: the
payload is read out of the holder unconditionally (`z.Bool`, `z.String`,
`z.Int64`) — the `Valid` flag is never consulted. -/
def decodeSlot : ScanValue → Value
  | .nullBool _ b => .vBool b
  | .nullString _ s => .vString s
  | .nullInt64 _ i => .vInt64 i

/-- `fillInMasterData` (storage.go 268-303): fills the row map from the scanned
holders, keyed by column name, iterating columns in index order.  The Go
indexed loop over `columnTypes` reading `scanArgs[i]` is written as a map over
the zip; the two lists always have equal length (both come from
`columnTypes`). -/
def fillInMasterData (columnTypes : List ColumnType) (scanArgs : List ScanValue) : M :=
  (columnTypes.zip scanArgs).map (fun p => (p.1.name, decodeSlot p.2))

/-! ## The database environment

`database/sql` is external to the repository; a connection is modelled as a
pair of query oracles, and one result set as the driver-reported column types
(which the driver may fail to produce), the raw rows, and the result of
closing the handle. -/

/-- A raw SQL value as delivered by the driver for one column of one row. -/
inductive SQLValue where
  | sqlNull
  | sqlString (s : String)
  | sqlBool (b : Bool)
  | sqlInt64 (i : Int)
deriving DecidableEq

/-- One result set (`*sql.Rows`): the outcome of `rows.ColumnTypes()`, the raw
rows the cursor will deliver, and the outcome of `rows.Close()`. -/
structure QueryResult where
  columnTypesResult : Except String (List ColumnType)
  rows : List (List SQLValue)
  closeResult : Except String Unit

/-- A database connection: `connection.Query` (statement text to result set or
error) and `connection.QueryRow(...).Scan(&count)` for the scalar count
queries (statement text to count or error). -/
structure DBConn where
  query : String → Except String QueryResult
  queryRowCount : String → Except String Int

/-- Scanning one raw driver value into one holder, modelled from
`database/sql`: `Null*.Scan(nil)` resets the holder to `Valid=false` with zero
payload; a value of the holder's own type is stored with `Valid=true`; the
remaining combinations (never exercised by this program's claims) are a scan
error, as `convertAssign` rejects them. -/
def scanInto : ScanKind → SQLValue → Except String ScanValue
  | k, .sqlNull => .ok (nullSlot k)
  | .nullString, .sqlString s => .ok (.nullString true s)
  | .nullBool, .sqlBool b => .ok (.nullBool true b)
  | .nullInt64, .sqlInt64 i => .ok (.nullInt64 true i)
  | _, _ => .error "sql: Scan error: unsupported conversion"

/-- `rows.Scan(scanArgs...)`: fails when the column count of the row does not
match the argument count, otherwise converts each raw value into the
corresponding holder, failing on the first conversion error. -/
def scanRowArgs : List ScanValue → List SQLValue → Except String (List ScanValue)
  | [], [] => .ok []
  | arg :: args, v :: vs =>
    match scanInto arg.kind v with
    | .error e => .error e
    | .ok sv =>
      match scanRowArgs args vs with
      | .error e => .error e
      | .ok svs => .ok (sv :: svs)
  | _, _ => .error "sql: expected destination arguments in Scan"

/-! ## SQL statement builders (storage.go) -/

/-- `selectAllFromTable` (storage.go 323-328). -/
def selectAllFromTable (tableName : TableName) : String :=
  "SELECT * FROM " ++ tableName

/-- `select1FromTable` (storage.go 305-312). -/
def select1FromTable (tableName : TableName) : String :=
  "SELECT * FROM " ++ tableName ++ " LIMIT 1"

/-- `selectCountFromTable` (storage.go 314-321). -/
def selectCountFromTable (tableName : TableName) : String :=
  "SELECT count(*) FROM " ++ tableName

/-- The statement `ReadTable` (storage.go 331-336) executes: the full-table
select, with `" LIMIT %d"` appended when `limit > 0`. -/
def readTableStatement (tableName : TableName) (limit : Int) : String :=
  if limit > 0 then selectAllFromTable tableName ++ " LIMIT " ++ toString limit
  else selectAllFromTable tableName

/-! ## ReadTable and RetrieveColumnTypes (storage.go) -/

/-- A result paired with the number of result-set handles still open at the
moment the function returns — the instrumentation for the release-on-every-
exit-path invariant.  `0` means every acquired handle was closed before
returning. -/
structure Tracked (α : Type) where
  val : α
  openHandles : Nat

/-- The row loop of `ReadTable`: for each row allocate fresh scan arguments
(`fillInScanArgs`), scan (`rows.Scan`), decode (`fillInMasterData`); a scan
error returns `nil, err` at once, so the accumulated rows are discarded. -/
def scanRows (columnTypes : List ColumnType) : List (List SQLValue) → Except String (List M)
  | [] => .ok []
  | raw :: rest =>
    match scanRowArgs (fillInScanArgs columnTypes) raw with
    | .error e => .error e
    | .ok scanArgs =>
      match scanRows columnTypes rest with
      | .error e => .error e
      | .ok ms => .ok (fillInMasterData columnTypes scanArgs :: ms)

/-- `ReadTable` (storage.go 331-390): builds the statement, queries, retrieves
column types, then scans row by row.  The `defer rows.Close()` installed right
after a successful `Query` closes the handle on every later exit path (the
close error is only logged), so `openHandles = 0` on each of them; a failed
`Query` acquires no handle. -/
def ReadTable (conn : DBConn) (tableName : TableName) (limit : Int) :
    Tracked (Except String (List M)) :=
  match conn.query (readTableStatement tableName limit) with
  | .error e => ⟨.error e, 0⟩
  | .ok qr =>
    match qr.columnTypesResult with
    | .error e => ⟨.error e, 0⟩
    | .ok columnTypes => ⟨scanRows columnTypes qr.rows, 0⟩

/-- `RetrieveColumnTypes` (storage.go 513-540): probe query, then
`rows.ColumnTypes()`, then an explicit `rows.Close()`.  There is no `defer` in
this function: the early `return nil, err` taken when `ColumnTypes()` fails
happens before the `rows.Close()` call, leaving the handle open
(`openHandles = 1`). -/
def RetrieveColumnTypes (conn : DBConn) (tableName : TableName) :
    Tracked (Except String (List ColumnType)) :=
  match conn.query (select1FromTable tableName) with
  | .error e => ⟨.error e, 0⟩
  | .ok qr =>
    match qr.columnTypesResult with
    | .error e => ⟨.error e, 1⟩
    | .ok columnTypes =>
      match qr.closeResult with
      | .error e => ⟨.error e, 0⟩
      | .ok _ => ⟨.ok columnTypes, 0⟩

/-! ## The CSV writer (encoding/csv over bufio, external to the repository)

`csv.NewWriter(sink)` buffers records in a `bufio.Writer`; bytes reach the
sink only on `Flush`, and a failing sink makes the writer error sticky,
reported by `writer.Error()`.  `sinkErr` is the error the underlying sink
returns when bytes are actually pushed to it (`none` for a sink that cannot
fail, such as `bytes.Buffer`). -/
structure CSVWriter where
  sinkErr : Option String
  pending : List (List String)
  flushed : List (List String)
  werr : Option String

/-- `csv.NewWriter` over a sink with failure behaviour `sinkErr`. -/
def newCSVWriter (sinkErr : Option String) : CSVWriter :=
  ⟨sinkErr, [], [], none⟩

/-- `writer.Write(record)`: serializes into the internal buffer; returns the
sticky error if one is already recorded, otherwise succeeds (the buffer is
unbounded in the model, so no intermediate flush happens). -/
def CSVWriter.write (w : CSVWriter) (record : List String) :
    CSVWriter × Except String Unit :=
  match w.werr with
  | some e => (w, .error e)
  | none => ({ w with pending := w.pending ++ [record] }, .ok ())

/-- `writer.Flush()`: pushes the buffered records to the sink; a failing sink
records the sticky error and delivers nothing. -/
def CSVWriter.flushW (w : CSVWriter) : CSVWriter :=
  match w.werr with
  | some _ => w
  | none =>
    match w.sinkErr with
    | some e => { w with werr := some e }
    | none => { w with flushed := w.flushed ++ w.pending, pending := [] }

/-- All records accepted by the writer so far, in order (flushed first, then
still buffered). -/
def CSVWriter.emitted (w : CSVWriter) : List (List String) :=
  w.flushed ++ w.pending

/-! ## CSV serialization (encoding/csv, `Comma = ','`, `UseCRLF = false`) -/

/-- The first rune of a field is inspected with `unicode.IsSpace`; this covers
Go's white-space set over the Latin-1 range (all fields in this development
are ASCII). -/
def isGoSpace (c : Char) : Bool :=
  c = ' ' || c = '\t' || c = '\n' || c = '\x0b' || c = '\x0c' || c = '\r' ||
    c = '\u0085' || c = '\u00A0'

/-- `fieldNeedsQuotes` of encoding/csv: the empty field is unquoted; the
literal `\.` is quoted; a field containing the comma, a double quote, CR or LF
is quoted; otherwise a field is quoted exactly when its first rune is white
space. -/
def fieldNeedsQuotes (field : String) : Bool :=
  if field = "" then false
  else if field = "\\." then true
  else if field.data.any (fun c => c = ',' || c = '\"' || c = '\r' || c = '\n') then true
  else
    match field.data with
    | [] => false
    | c :: _ => isGoSpace c

/-- The quoted form of a field with `UseCRLF = false`: each double quote is
doubled, CR and LF are copied verbatim. -/
def escapeField (s : String) : String :=
  s.data.foldl (fun acc c => if c = '\"' then acc ++ "\"\"" else acc.push c) ""

/-- One serialized field. -/
def renderField (field : String) : String :=
  if fieldNeedsQuotes field then "\"" ++ escapeField field ++ "\"" else field

/-- One serialized record: comma-joined fields, terminated by a newline
(`UseCRLF = false`). -/
def renderRecord (record : List String) : String :=
  String.intercalate "," (record.map renderField) ++ "\n"

/-- The byte content produced for a list of records. -/
def csvRender (records : List (List String)) : String :=
  String.join (records.map renderRecord)

/-! ## Value formatting (`fmt.Sprintf("%v", value)` in `WriteTableContent`) -/

/-- `fmt.Sprintf("%v", finalRow[colName])`: a missing key yields the nil
interface, printed `<nil>`; bool prints `true`/`false`; string prints itself;
int64 prints in base 10. -/
def sprintfV : Option Value → String
  | none => "<nil>"
  | some (.vBool b) => if b then "true" else "false"
  | some (.vString s) => s
  | some (.vInt64 i) => toString i

/-! ## The CSV projection engine (storage.go) -/

/-- `getColumnNames` (storage.go 630-637). -/
def getColumnNames (columnTypes : List ColumnType) : List String :=
  columnTypes.map (fun columnType => columnType.name)

/-- `writeColumnNames` (storage.go 639-646): writes the header record. -/
def writeColumnNames (writer : CSVWriter) (colNames : List String) :
    CSVWriter × Except String Unit :=
  writer.write colNames

/-- The inner loop of `WriteTableContent` building one CSV record: one field
per column name, in `colNames` order, formatted with `%v`. -/
def renderRow (colNames : List String) (finalRow : M) : List String :=
  colNames.map (fun colName => sprintfV (mLookup finalRow colName))

/-- The outer loop of `WriteTableContent`: one `writer.Write` per row,
returning on the first write error. -/
def writeRows (writer : CSVWriter) (colNames : List String) :
    List M → CSVWriter × Except String Unit
  | [] => (writer, .ok ())
  | finalRow :: rest =>
    match writer.write (renderRow colNames finalRow) with
    | (w, .error e) => (w, .error e)
    | (w, .ok _) => writeRows w colNames rest

/-- `WriteTableContent` (storage.go 544-567): read the whole table, then write
one CSV record per row. -/
def WriteTableContent (conn : DBConn) (writer : CSVWriter) (tableName : TableName)
    (colNames : List String) (limit : Int) : CSVWriter × Except String Unit :=
  match (ReadTable conn tableName limit).val with
  | .error e => (writer, .error e)
  | .ok finalRows => writeRows writer colNames finalRows

/-- Modelled from the spec: the function `setObjectPrefix` is not present
under `src/`; §6 of the spec gives the object-store naming convention
`<prefix><table-name>.csv`, so the object key before the `.csv` suffix is the
prefix followed by the table name. -/
def objectKeyFor (pfx : String) (tableName : TableName) : String :=
  pfx ++ tableName

/-- The observable outcome of `StoreTable`: its return value, the records
handed to the CSV writer in order, and the objects put to the object store
(name and byte content). -/
structure StoreTableOut where
  result : Except String Unit
  records : List (List String)
  uploaded : List (String × String)

/-- `StoreTable` (storage.go 393-441): introspect, write header and content
into an in-memory buffer through a CSV writer, `Flush`, then `PutObject` the
buffer.  Note the source never consults `writer.Error()` here.  `putErr` is
the outcome of the `PutObject` call (`none` = success). -/
def StoreTable (conn : DBConn) (putErr : Option String) (pfx : String)
    (tableName : TableName) (limit : Int) (sinkErr : Option String) : StoreTableOut :=
  match (RetrieveColumnTypes conn tableName).val with
  | .error e => ⟨.error e, [], []⟩
  | .ok columnTypes =>
    let colNames := getColumnNames columnTypes
    let writer := newCSVWriter sinkErr
    match writeColumnNames writer colNames with
    | (w1, .error e) => ⟨.error e, w1.emitted, []⟩
    | (w1, .ok _) =>
      match WriteTableContent conn w1 tableName colNames limit with
      | (w2, .error e) => ⟨.error e, w2.emitted, []⟩
      | (w2, .ok _) =>
        let w3 := w2.flushW
        let objectName := objectKeyFor pfx tableName ++ ".csv"
        match putErr with
        | some e => ⟨.error e, w3.emitted, []⟩
        | none => ⟨.ok (), w3.emitted, [(objectName, csvRender w3.flushed)]⟩

/-- The filesystem/sink environment of `StoreTableIntoFile`: the outcome of
`os.Create`, the failure behaviour of writes reaching the file, and the
outcome of `fout.Close()`. -/
structure FileEnv where
  createErr : Option String
  sinkErr : Option String
  closeErr : Option String

/-- The observable outcome of `StoreTableIntoFile`: its return value, the
records handed to the CSV writer, and the created file (name and byte content
that reached it), if any. -/
structure StoreFileOut where
  result : Except String Unit
  records : List (List String)
  file : Option (String × String)

/-- `StoreTableIntoFile` (storage.go 444-490): introspect, create the file,
write header and content through a CSV writer, `Flush`, check
`writer.Error()`, close the file. -/
def StoreTableIntoFile (conn : DBConn) (env : FileEnv) (tableName : TableName)
    (limit : Int) : StoreFileOut :=
  match (RetrieveColumnTypes conn tableName).val with
  | .error e => ⟨.error e, [], none⟩
  | .ok columnTypes =>
    let colNames := getColumnNames columnTypes
    let fileName := tableName ++ ".csv"
    match env.createErr with
    | some e => ⟨.error e, [], none⟩
    | none =>
      let writer := newCSVWriter env.sinkErr
      match writeColumnNames writer colNames with
      | (w1, .error e) => ⟨.error e, w1.emitted, some (fileName, csvRender w1.flushed)⟩
      | (w1, .ok _) =>
        match WriteTableContent conn w1 tableName colNames limit with
        | (w2, .error e) => ⟨.error e, w2.emitted, some (fileName, csvRender w2.flushed)⟩
        | (w2, .ok _) =>
          let w3 := w2.flushW
          match w3.werr with
          | some e => ⟨.error e, w3.emitted, some (fileName, csvRender w3.flushed)⟩
          | none =>
            match env.closeErr with
            | some e => ⟨.error e, w3.emitted, some (fileName, csvRender w3.flushed)⟩
            | none => ⟨.ok (), w3.emitted, some (fileName, csvRender w3.flushed)⟩

/-! ## Metadata and aggregate exporters (storage.go, csv.go) -/

/-- `ReadRecordsCount` (storage.go 494-510): scalar count query; the Go pair
`(-1, err)` / `(count, nil)` is the error / success case. -/
def ReadRecordsCount (conn : DBConn) (tableName : TableName) : Except String Int :=
  match conn.queryRowCount (selectCountFromTable tableName) with
  | .error e => .error e
  | .ok count => .ok count

/-- The observable outcome of `TableMetadataToCSV`: its return value, the CSV
writer over the sink (`none` when the nil-sink guard fired before a writer was
created), and the count statements actually executed, in order. -/
structure MetaOut where
  result : Except String Unit
  writer : Option CSVWriter
  queriesRun : List String

/-- The per-table loop of `TableMetadataToCSV`: count, then write
`[tableName, strconv.Itoa(cnt)]`; the first count error or write error returns
at once, so later tables are not queried. -/
def metadataRows (conn : DBConn) (w : CSVWriter) :
    List TableName → CSVWriter × Except String Unit × List String
  | [] => (w, .ok (), [])
  | tableName :: rest =>
    match ReadRecordsCount conn tableName with
    | .error e => (w, .error e, [selectCountFromTable tableName])
    | .ok cnt =>
      match w.write [tableName, toString cnt] with
      | (w1, .error e) => (w1, .error e, [selectCountFromTable tableName])
      | (w1, .ok _) =>
        match metadataRows conn w1 rest with
        | (w2, r, qs) => (w2, r, selectCountFromTable tableName :: qs)

/-- `TableMetadataToCSV` (csv.go 74-113): nil-sink guard, header
`Table name,Records`, one row per table via `metadataRows`, `Flush`, then
`writer.Error()`.  The sink is `none` for a nil buffer, `some sinkErr`
otherwise. -/
def TableMetadataToCSV (sink : Option (Option String)) (tableNames : List TableName)
    (conn : DBConn) : MetaOut :=
  match sink with
  | none => ⟨.error "Buffer is nil", none, []⟩
  | some sinkErr =>
    let writer := newCSVWriter sinkErr
    match writer.write ["Table name", "Records"] with
    | (w, .error e) => ⟨.error e, some w, []⟩
    | (w, .ok _) =>
      match metadataRows conn w tableNames with
      | (w1, .error e, qs) => ⟨.error e, some w1, qs⟩
      | (w1, .ok _, qs) =>
        let w2 := w1.flushW
        match w2.werr with
        | some e => ⟨.error e, some w2, qs⟩
        | none => ⟨.ok (), some w2, qs⟩

/-- The observable outcome of `DisabledRulesToCSV`. -/
structure RulesOut where
  result : Except String Unit
  writer : Option CSVWriter

/-- `writer.WriteAll(data)` of encoding/csv: write every record, then `Flush`
and report the writer error. -/
def writeAllRecords (w : CSVWriter) : List (List String) → CSVWriter × Except String Unit
  | [] =>
    let wf := w.flushW
    (wf, match wf.werr with | some e => .error e | none => .ok ())
  | r :: rest =>
    match w.write r with
    | (w1, .error e) => (w1, .error e)
    | (w1, .ok _) => writeAllRecords w1 rest

/-- The per-rule loop of `DisabledRulesToCSV`: one record
`[rule, strconv.Itoa(count)]` per entry, returning on the first write
error. -/
def rulesRows (w : CSVWriter) : List DisabledRuleInfo → CSVWriter × Except String Unit
  | [] => (w, .ok ())
  | info :: rest =>
    match w.write [info.rule, toString info.count] with
    | (w1, .error e) => (w1, .error e)
    | (w1, .ok _) => rulesRows w1 rest

/-- `DisabledRulesToCSV` (csv.go 38-71): nil-sink guard, header `Rule,Count`
via `WriteAll`, one row per disabled rule, `Flush`, then `writer.Error()`. -/
def DisabledRulesToCSV (sink : Option (Option String))
    (disabledRulesInfo : List DisabledRuleInfo) : RulesOut :=
  match sink with
  | none => ⟨.error "Buffer is nil", none⟩
  | some sinkErr =>
    let writer := newCSVWriter sinkErr
    match writeAllRecords writer [["Rule", "Count"]] with
    | (w, .error e) => ⟨.error e, some w⟩
    | (w, .ok _) =>
      match rulesRows w disabledRulesInfo with
      | (w1, .error e) => ⟨.error e, some w1⟩
      | (w1, .ok _) =>
        let w2 := w1.flushW
        match w2.werr with
        | some e => ⟨.error e, some w2⟩
        | none => ⟨.ok (), some w2⟩

/-! ## Concrete environments used by witnesses and counterexamples -/

/-- Column types of the spec's Scenario A table `t`: `(id INT4, name VARCHAR)`. -/
def ctsIdName : List ColumnType := [⟨"id", "INT4"⟩, ⟨"name", "VARCHAR"⟩]

/-- A database holding Scenario A's table `t` with rows `(1,"a")` and
`(2,"b")`. -/
def connT : DBConn where
  query s :=
    if s = "SELECT * FROM t LIMIT 1" then
      .ok ⟨.ok ctsIdName, [[.sqlInt64 1, .sqlString "a"]], .ok ()⟩
    else if s = "SELECT * FROM t" then
      .ok ⟨.ok ctsIdName,
        [[.sqlInt64 1, .sqlString "a"], [.sqlInt64 2, .sqlString "b"]], .ok ()⟩
    else .error "no such query"
  queryRowCount _ := .error "unused"

/-- A database where the probe query on `t` succeeds but the driver cannot
report column types for the result set. -/
def connMetaFail : DBConn where
  query s :=
    if s = "SELECT * FROM t LIMIT 1" then .ok ⟨.error "metadata failure", [], .ok ()⟩
    else .error "no such query"
  queryRowCount _ := .error "unused"

/-- A database whose table `t` delivers one scannable row followed by a row
whose first column (declared INT4) carries a boolean, so that the second
`rows.Scan` fails. -/
def connScanFail : DBConn where
  query s :=
    if s = "SELECT * FROM t" then
      .ok ⟨.ok ctsIdName,
        [[.sqlInt64 1, .sqlString "a"], [.sqlBool true, .sqlString "b"]], .ok ()⟩
    else .error "no such query"
  queryRowCount _ := .error "unused"

/-- A database where every query fails, as for the spec's `bad_table`. -/
def connBadTable : DBConn where
  query _ := .error "no such table: bad_table"
  queryRowCount _ := .error "no such table: bad_table"

/-- The record counts of the spec's Scenario B: `t1` has 3 records, `t2` has
0; counting any other table fails. -/
def connCounts : DBConn where
  query _ := .error "unused"
  queryRowCount s :=
    if s = "SELECT count(*) FROM t1" then .ok 3
    else if s = "SELECT count(*) FROM t2" then .ok 0
    else .error "count failed"

/-! ## Writer lemmas -/

/-- Flushing never changes the sequence of records accepted by the writer. -/
theorem flushW_emitted (w : CSVWriter) : w.flushW.emitted = w.emitted := by
  unfold CSVWriter.flushW CSVWriter.emitted
  split
  · rfl
  · split
    · rfl
    · simp

/-- A write on an error-free writer appends the record and succeeds. -/
theorem write_of_werr_none (w : CSVWriter) (r : List String) (h : w.werr = none) :
    w.write r = ({ w with pending := w.pending ++ [r] }, .ok ()) := by
  unfold CSVWriter.write
  rw [h]

/-- The row loop never fails on an error-free writer: it appends one rendered
record per row, leaving the error state clear and the sink behaviour
unchanged. -/
theorem writeRows_success (colNames : List String) :
    ∀ (rows : List M) (w : CSVWriter), w.werr = none →
      writeRows w colNames rows =
        ({ w with pending := w.pending ++ rows.map (renderRow colNames) }, .ok ()) := by
  intro rows
  induction rows with
  | nil => intro w h; simp [writeRows]
  | cons r rest ih =>
    intro w h
    unfold writeRows
    rw [write_of_werr_none w _ h]
    dsimp only
    rw [ih { w with pending := w.pending ++ [renderRow colNames r] } h]
    simp

/-- The records accepted during the row loop extend the writer's stream by a
suffix consisting solely of rendered rows. -/
theorem writeRows_suffix (colNames : List String) :
    ∀ (rows : List M) (w : CSVWriter),
      ∃ suffix, ((writeRows w colNames rows).1).emitted = w.emitted ++ suffix ∧
        ∀ rec ∈ suffix, ∃ row, rec = renderRow colNames row := by
  intro rows
  induction rows with
  | nil => intro w; exact ⟨[], by simp [writeRows]⟩
  | cons r rest ih =>
    intro w
    unfold writeRows
    cases h : w.werr with
    | some e =>
      refine ⟨[], ?_, by simp⟩
      unfold CSVWriter.write
      rw [h]
      simp
    | none =>
      rw [write_of_werr_none w _ h]
      obtain ⟨s, hs, hm⟩ := ih { w with pending := w.pending ++ [renderRow colNames r] }
      refine ⟨renderRow colNames r :: s, ?_, ?_⟩
      · rw [hs]
        simp [CSVWriter.emitted]
      · intro rec hrec
        rcases List.mem_cons.mp hrec with h1 | h1
        · exact ⟨r, h1⟩
        · exact hm rec h1

/-- `WriteTableContent` extends the writer's stream by rendered rows only. -/
theorem writeTableContent_suffix (conn : DBConn) (w : CSVWriter)
    (tableName : TableName) (colNames : List String) (limit : Int) :
    ∃ suffix,
      ((WriteTableContent conn w tableName colNames limit).1).emitted = w.emitted ++ suffix ∧
      ∀ rec ∈ suffix, ∃ row, rec = renderRow colNames row := by
  unfold WriteTableContent
  split
  · exact ⟨[], by simp⟩
  · exact writeRows_suffix colNames _ w

/-! ## C3: the type-mapping step is total with a string fallback -/

/-- C3: `fillInScanArgs` allocates holders by the pure, total mapping
`scanKindFor`: the four string-ish type names map to the nullable-string
holder, `BOOL` to the nullable-bool holder, `INT4` to the nullable-int64
holder, and every other type name falls back to the nullable-string holder. -/
theorem scanKindFor_total_mapping :
    scanKindFor "VARCHAR" = .nullString ∧
    scanKindFor "TEXT" = .nullString ∧
    scanKindFor "UUID" = .nullString ∧
    scanKindFor "TIMESTAMP" = .nullString ∧
    scanKindFor "BOOL" = .nullBool ∧
    scanKindFor "INT4" = .nullInt64 ∧
    (∀ s : String, s ≠ "VARCHAR" → s ≠ "TEXT" → s ≠ "UUID" → s ≠ "TIMESTAMP" →
      s ≠ "BOOL" → s ≠ "INT4" → scanKindFor s = .nullString) ∧
    (∀ columnTypes : List ColumnType,
      fillInScanArgs columnTypes =
        columnTypes.map (fun v => nullSlot (scanKindFor v.databaseTypeName))) := by
  refine ⟨rfl, rfl, rfl, rfl, rfl, rfl, ?_, fun _ => rfl⟩
  intro s h1 h2 h3 h4 h5 h6
  simp only [scanKindFor, if_neg h1, if_neg h2, if_neg h3, if_neg h4, if_neg h5, if_neg h6]

/-- Witness for C3 at the unknown type name `JSONB`. -/
theorem scanKindFor_total_mapping_witness : scanKindFor "JSONB" = .nullString :=
  scanKindFor_total_mapping.2.2.2.2.2.2.1 "JSONB"
    (by decide) (by decide) (by decide) (by decide) (by decide) (by decide)

/-! ## C4: SQL NULL decodes to the type's zero value -/

/-- C4: scanning SQL NULL into a holder yields the zero holder
(`Valid = false`, zero payload); `fillInMasterData` decodes that holder to the
type's zero value (`false`, `""`, `0`), and the decoding step ignores the
`Valid` flag entirely, so a NULL column is indistinguishable in the produced
row — and hence in the emitted CSV — from a column holding the type's zero
value. -/
theorem null_decodes_to_zero_value :
    (∀ k : ScanKind, scanInto k .sqlNull = .ok (nullSlot k)) ∧
    (decodeSlot (nullSlot .nullBool) = .vBool false ∧
     decodeSlot (nullSlot .nullString) = .vString "" ∧
     decodeSlot (nullSlot .nullInt64) = .vInt64 0) ∧
    (∀ (valid : Bool) (b : Bool), decodeSlot (.nullBool valid b) = .vBool b) ∧
    (∀ (valid : Bool) (s : String), decodeSlot (.nullString valid s) = .vString s) ∧
    (∀ (valid : Bool) (i : Int), decodeSlot (.nullInt64 valid i) = .vInt64 i) ∧
    (∀ (columnTypes : List ColumnType) (scanArgs : List ScanValue),
      fillInMasterData columnTypes scanArgs =
        (columnTypes.zip scanArgs).map (fun p => (p.1.name, decodeSlot p.2))) := by
  refine ⟨?_, ⟨rfl, rfl, rfl⟩, fun _ _ => rfl, fun _ _ => rfl, fun _ _ => rfl, fun _ _ => rfl⟩
  intro k
  cases k <;> rfl

/-! ## C7: the LIMIT clause is appended exactly when the limit is positive -/

/-- C7: `ReadTable` builds its statement as the full-table select with
`" LIMIT n"` appended when `limit > 0`; the statement equals the unbounded
full-table select exactly when `limit ≤ 0`. -/
theorem readTable_limit_clause (tableName : TableName) (limit : Int) :
    (0 < limit →
      readTableStatement tableName limit =
        selectAllFromTable tableName ++ " LIMIT " ++ toString limit) ∧
    (readTableStatement tableName limit = selectAllFromTable tableName ↔ limit ≤ 0) := by
  constructor
  · intro h
    unfold readTableStatement
    rw [if_pos h]
  · constructor
    · intro heq
      by_contra hc
      push_neg at hc
      unfold readTableStatement at heq
      rw [if_pos hc] at heq
      have hlen := congrArg String.length heq
      rw [String.length_append, String.length_append] at hlen
      have h7 : (" LIMIT ").length = 7 := rfl
      omega
    · intro hle
      unfold readTableStatement
      rw [if_neg (by omega)]

/-- Witness for C7 at limits 5 and 0 for table `t`. -/
theorem readTable_limit_clause_witness :
    readTableStatement "t" 5 = selectAllFromTable "t" ++ " LIMIT " ++ toString (5 : Int) ∧
    readTableStatement "t" 0 = selectAllFromTable "t" :=
  ⟨(readTable_limit_clause "t" 5).1 (by decide),
   (readTable_limit_clause "t" 0).2.mpr (by decide)⟩

/-! ## C10: a nil sink is rejected before any work -/

/-- C10: with a nil sink, `DisabledRulesToCSV` and `TableMetadataToCSV` return
the `Buffer is nil` error without creating a writer (so no bytes are written)
and, for `TableMetadataToCSV`, without executing a single count query. -/
theorem nil_sink_rejected (rules : List DisabledRuleInfo) (tables : List TableName)
    (conn : DBConn) :
    DisabledRulesToCSV none rules = ⟨.error "Buffer is nil", none⟩ ∧
    TableMetadataToCSV none tables conn = ⟨.error "Buffer is nil", none, []⟩ :=
  ⟨rfl, rfl⟩

/-! ## C2: result-set handles on exit paths -/

/-- C2: `ReadTable` closes its result-set handle on every exit path (the
deferred close), but `RetrieveColumnTypes` does not: when the probe query
succeeds and `rows.ColumnTypes()` then fails, it returns the error with the
handle still open (one leaked handle), contradicting the release-on-every-
exit-path invariant. -/
theorem retrieveColumnTypes_leaks_handle_on_metadata_failure :
    RetrieveColumnTypes connMetaFail "t" = ⟨.error "metadata failure", 1⟩ ∧
    (∀ (conn : DBConn) (tableName : TableName) (limit : Int),
      (ReadTable conn tableName limit).openHandles = 0) ∧
    (∀ (conn : DBConn) (tableName : TableName) (qr : QueryResult)
        (columnTypes : List ColumnType),
      conn.query (select1FromTable tableName) = .ok qr →
      qr.columnTypesResult = .ok columnTypes →
      (RetrieveColumnTypes conn tableName).openHandles = 0) := by
  refine ⟨rfl, ?_, ?_⟩
  · intro conn tableName limit
    unfold ReadTable
    split
    · rfl
    · split <;> rfl
  · intro conn tableName qr columnTypes hq hc
    unfold RetrieveColumnTypes
    rw [hq]
    dsimp only
    rw [hc]
    dsimp only
    split <;> rfl

/-- Witness for C2: with the probe and metadata both succeeding, the handle is
closed before `RetrieveColumnTypes` returns. -/
theorem retrieveColumnTypes_leaks_handle_on_metadata_failure_witness :
    (RetrieveColumnTypes connT "t").openHandles = 0 :=
  retrieveColumnTypes_leaks_handle_on_metadata_failure.2.2 connT "t"
    ⟨.ok ctsIdName, [[.sqlInt64 1, .sqlString "a"]], .ok ()⟩ ctsIdName rfl rfl

/-! ## C9: a failed introspection writes nothing to the sink -/

/-- C9: when the introspection step fails, both table exports return that
error having handed no record to a CSV writer, uploaded no object, and created
no file. -/
theorem introspection_failure_writes_nothing (conn : DBConn) (tableName : TableName)
    (e : String) (putErr : Option String) (pfx : String) (limit : Int)
    (sinkErr : Option String) (env : FileEnv)
    (h : (RetrieveColumnTypes conn tableName).val = .error e) :
    StoreTable conn putErr pfx tableName limit sinkErr = ⟨.error e, [], []⟩ ∧
    StoreTableIntoFile conn env tableName limit = ⟨.error e, [], none⟩ := by
  constructor
  · unfold StoreTable
    rw [h]
  · unfold StoreTableIntoFile
    rw [h]

/-- Witness for C9: the probe query on `bad_table` fails, and both exports
report the query error with an empty record stream, no upload and no file. -/
theorem introspection_failure_writes_nothing_witness :
    StoreTable connBadTable none "" "bad_table" 0 none =
      ⟨.error "no such table: bad_table", [], []⟩ ∧
    StoreTableIntoFile connBadTable ⟨none, none, none⟩ "bad_table" 0 =
      ⟨.error "no such table: bad_table", [], none⟩ :=
  introspection_failure_writes_nothing connBadTable "bad_table"
    "no such table: bad_table" none "" 0 none ⟨none, none, none⟩ rfl

/-! ## C5: a scan failure discards the partial row set -/

/-- If every row before some failing row scans successfully, the row loop of
`ReadTable` stops at the failing row and yields its error — the rows after it
are not visited and the rows before it are not returned. -/
theorem scanRows_first_failure (columnTypes : List ColumnType) :
    ∀ (good : List (List SQLValue)) (bad : List SQLValue) (rest : List (List SQLValue))
      (e : String),
      (∀ r ∈ good, ∃ svs, scanRowArgs (fillInScanArgs columnTypes) r = .ok svs) →
      scanRowArgs (fillInScanArgs columnTypes) bad = .error e →
      scanRows columnTypes (good ++ bad :: rest) = .error e := by
  intro good
  induction good with
  | nil =>
    intro bad rest e _ hbad
    simp only [List.nil_append, scanRows, hbad]
  | cons g gs ih =>
    intro bad rest e hgood hbad
    obtain ⟨svs, hg⟩ := hgood g (List.mem_cons_self g gs)
    have hrest := ih bad rest e (fun r hr => hgood r (List.mem_cons_of_mem g hr)) hbad
    simp only [List.cons_append, scanRows, hg, List.append_eq, hrest]

/-- C5: if the statement executes and the column types are available but the
scan of some row fails, `ReadTable` returns exactly that row's error and no
rows at all — the rows decoded before the failure are discarded. -/
theorem readTable_scan_failure_discards_rows (conn : DBConn) (qr : QueryResult)
    (columnTypes : List ColumnType) (good : List (List SQLValue))
    (bad : List SQLValue) (rest : List (List SQLValue)) (tableName : TableName)
    (limit : Int) (e : String)
    (hq : conn.query (readTableStatement tableName limit) = .ok qr)
    (hc : qr.columnTypesResult = .ok columnTypes)
    (hr : qr.rows = good ++ bad :: rest)
    (hgood : ∀ r ∈ good, ∃ svs, scanRowArgs (fillInScanArgs columnTypes) r = .ok svs)
    (hbad : scanRowArgs (fillInScanArgs columnTypes) bad = .error e) :
    (ReadTable conn tableName limit).val = .error e := by
  unfold ReadTable
  rw [hq]
  dsimp only
  rw [hc]
  dsimp only
  rw [hr]
  exact scanRows_first_failure columnTypes good bad rest e hgood hbad

/-- Witness for C5: in `connScanFail`, table `t` scans one good row and then
fails on the second; `ReadTable` returns the scan error with no rows. -/
theorem readTable_scan_failure_discards_rows_witness :
    (ReadTable connScanFail "t" 0).val = .error "sql: Scan error: unsupported conversion" :=
  readTable_scan_failure_discards_rows connScanFail
    ⟨.ok ctsIdName, [[.sqlInt64 1, .sqlString "a"], [.sqlBool true, .sqlString "b"]], .ok ()⟩
    ctsIdName [[.sqlInt64 1, .sqlString "a"]] [.sqlBool true, .sqlString "b"] [] "t" 0
    "sql: Scan error: unsupported conversion" rfl rfl rfl
    (by
      intro r hr
      rw [List.mem_singleton] at hr
      subst hr
      exact ⟨[.nullInt64 true 1, .nullString true "a"], rfl⟩)
    rfl

/-! ## C1: no header/data column skew -/

/-- When `ReadTable` fails, `WriteTableContent` returns its error and leaves
the writer untouched. -/
theorem writeTableContent_of_error (conn : DBConn) (w : CSVWriter)
    (tableName : TableName) (colNames : List String) (limit : Int) (e : String)
    (hrt : (ReadTable conn tableName limit).val = .error e) :
    WriteTableContent conn w tableName colNames limit = (w, .error e) := by
  unfold WriteTableContent
  rw [hrt]

/-- When `ReadTable` succeeds and the writer is error-free,
`WriteTableContent` appends exactly one rendered record per row and
succeeds. -/
theorem writeTableContent_of_ok (conn : DBConn) (w : CSVWriter)
    (tableName : TableName) (colNames : List String) (limit : Int) (rows : List M)
    (hrt : (ReadTable conn tableName limit).val = .ok rows) (hw : w.werr = none) :
    WriteTableContent conn w tableName colNames limit =
      ({ w with pending := w.pending ++ rows.map (renderRow colNames) }, .ok ()) := by
  unfold WriteTableContent
  rw [hrt]
  exact writeRows_success colNames rows w hw

/-- Writing the header on a fresh CSV writer always succeeds and leaves the
header as the only buffered record. -/
theorem writeColumnNames_fresh (sinkErr : Option String) (colNames : List String) :
    writeColumnNames (newCSVWriter sinkErr) colNames =
      (⟨sinkErr, [colNames], [], none⟩, .ok ()) := rfl

/-- The records `StoreTable` hands to its CSV writer are the introspected
header followed by rendered data rows only. -/
theorem storeTable_records_shape (conn : DBConn) (putErr : Option String)
    (pfx : String) (tableName : TableName) (limit : Int) (sinkErr : Option String)
    (columnTypes : List ColumnType)
    (h : (RetrieveColumnTypes conn tableName).val = .ok columnTypes) :
    ∃ suffix,
      (StoreTable conn putErr pfx tableName limit sinkErr).records =
        getColumnNames columnTypes :: suffix ∧
      ∀ rec ∈ suffix, ∃ row, rec = renderRow (getColumnNames columnTypes) row := by
  unfold StoreTable
  rw [h]
  dsimp only
  rw [writeColumnNames_fresh]
  dsimp only
  obtain ⟨suffix, hs, hm⟩ :=
    writeTableContent_suffix conn
      ⟨sinkErr, [getColumnNames columnTypes], [], none⟩ tableName
      (getColumnNames columnTypes) limit
  rcases hwt : WriteTableContent conn
      ⟨sinkErr, [getColumnNames columnTypes], [], none⟩ tableName
      (getColumnNames columnTypes) limit with ⟨w2, r2⟩
  rw [hwt] at hs
  simp only [CSVWriter.emitted, List.nil_append] at hs
  cases r2 with
  | error e =>
    exact ⟨suffix, by simpa [CSVWriter.emitted] using hs, hm⟩
  | ok u =>
    refine ⟨suffix, ?_, hm⟩
    have hf := flushW_emitted w2
    simp only [CSVWriter.emitted] at hf
    rw [hs] at hf
    cases putErr <;> simpa [CSVWriter.emitted] using hf

/-- The records `StoreTableIntoFile` hands to its CSV writer are the
introspected header followed by rendered data rows only (provided the file
could be created; otherwise no writer exists and no record is written). -/
theorem storeTableIntoFile_records_shape (conn : DBConn) (env : FileEnv)
    (tableName : TableName) (limit : Int) (columnTypes : List ColumnType)
    (h : (RetrieveColumnTypes conn tableName).val = .ok columnTypes)
    (hcreate : env.createErr = none) :
    ∃ suffix,
      (StoreTableIntoFile conn env tableName limit).records =
        getColumnNames columnTypes :: suffix ∧
      ∀ rec ∈ suffix, ∃ row, rec = renderRow (getColumnNames columnTypes) row := by
  unfold StoreTableIntoFile
  rw [h]
  dsimp only
  rw [hcreate]
  dsimp only
  rw [writeColumnNames_fresh]
  dsimp only
  obtain ⟨suffix, hs, hm⟩ :=
    writeTableContent_suffix conn
      ⟨env.sinkErr, [getColumnNames columnTypes], [], none⟩ tableName
      (getColumnNames columnTypes) limit
  rcases hwt : WriteTableContent conn
      ⟨env.sinkErr, [getColumnNames columnTypes], [], none⟩ tableName
      (getColumnNames columnTypes) limit with ⟨w2, r2⟩
  rw [hwt] at hs
  simp only [CSVWriter.emitted, List.nil_append] at hs
  cases r2 with
  | error e =>
    exact ⟨suffix, by simpa [CSVWriter.emitted] using hs, hm⟩
  | ok u =>
    refine ⟨suffix, ?_, hm⟩
    have hf := flushW_emitted w2
    simp only [CSVWriter.emitted] at hf
    rw [hs] at hf
    dsimp only
    cases hw : w2.flushW.werr with
    | none => cases env.closeErr <;> simpa using hf
    | some e2 => simpa using hf

/-- When the file cannot be created, `StoreTableIntoFile` writes no record. -/
theorem storeTableIntoFile_create_failure (conn : DBConn) (env : FileEnv)
    (tableName : TableName) (limit : Int) (columnTypes : List ColumnType)
    (e : String)
    (h : (RetrieveColumnTypes conn tableName).val = .ok columnTypes)
    (hcreate : env.createErr = some e) :
    StoreTableIntoFile conn env tableName limit = ⟨.error e, [], none⟩ := by
  unfold StoreTableIntoFile
  rw [h]
  dsimp only
  rw [hcreate]

/-- C1: for both exports, every record handed to the sink's CSV writer — the
header and each data record — has exactly one field per introspected column,
with data records laid out in the header's column order (each is the rendering
of one row along `getColumnNames`), and the header is the first record
written.  This holds whatever the table's row count. -/
theorem export_header_data_no_skew (conn : DBConn) (putErr : Option String)
    (pfx : String) (tableName : TableName) (limit : Int) (sinkErr : Option String)
    (env : FileEnv) (columnTypes : List ColumnType)
    (h : (RetrieveColumnTypes conn tableName).val = .ok columnTypes) :
    (∀ rec ∈ (StoreTable conn putErr pfx tableName limit sinkErr).records,
        rec.length = (getColumnNames columnTypes).length ∧
        (rec = getColumnNames columnTypes ∨
          ∃ row, rec = renderRow (getColumnNames columnTypes) row)) ∧
    (StoreTable conn putErr pfx tableName limit sinkErr).records.head? =
      some (getColumnNames columnTypes) ∧
    (∀ rec ∈ (StoreTableIntoFile conn env tableName limit).records,
        rec.length = (getColumnNames columnTypes).length ∧
        (rec = getColumnNames columnTypes ∨
          ∃ row, rec = renderRow (getColumnNames columnTypes) row)) ∧
    (env.createErr = none →
      (StoreTableIntoFile conn env tableName limit).records.head? =
        some (getColumnNames columnTypes)) := by
  obtain ⟨s1, hs1, hm1⟩ :=
    storeTable_records_shape conn putErr pfx tableName limit sinkErr columnTypes h
  refine ⟨?_, ?_, ?_, ?_⟩
  · intro rec hrec
    rw [hs1] at hrec
    rcases List.mem_cons.mp hrec with rfl | hrec
    · exact ⟨rfl, Or.inl rfl⟩
    · obtain ⟨row, hrow⟩ := hm1 rec hrec
      exact ⟨by rw [hrow]; simp [renderRow], Or.inr ⟨row, hrow⟩⟩
  · rw [hs1]; rfl
  · intro rec hrec
    cases hcr : env.createErr with
    | none =>
      obtain ⟨s2, hs2, hm2⟩ :=
        storeTableIntoFile_records_shape conn env tableName limit columnTypes h hcr
      rw [hs2] at hrec
      rcases List.mem_cons.mp hrec with rfl | hrec
      · exact ⟨rfl, Or.inl rfl⟩
      · obtain ⟨row, hrow⟩ := hm2 rec hrec
        exact ⟨by rw [hrow]; simp [renderRow], Or.inr ⟨row, hrow⟩⟩
    | some e =>
      rw [storeTableIntoFile_create_failure conn env tableName limit columnTypes e h hcr]
        at hrec
      simp at hrec
  · intro hcr
    obtain ⟨s2, hs2, hm2⟩ :=
      storeTableIntoFile_records_shape conn env tableName limit columnTypes h hcr
    rw [hs2]
    rfl

/-- Witness for C1 on Scenario A's two-row table `t`: the header is the first
record and the second data record has as many fields as the header. -/
theorem export_header_data_no_skew_witness :
    (StoreTable connT none "" "t" 0 none).records.head? =
      some (getColumnNames ctsIdName) ∧
    (["2", "b"].length = (getColumnNames ctsIdName).length ∧
      (["2", "b"] = getColumnNames ctsIdName ∨
        ∃ row, ["2", "b"] = renderRow (getColumnNames ctsIdName) row)) := by
  have h := export_header_data_no_skew connT none "" "t" 0 none
    ⟨none, none, none⟩ ctsIdName rfl
  exact ⟨h.2.1, h.1 ["2", "b"] (by rw [show (StoreTable connT none "" "t" 0 none).records =
    [["id", "name"], ["1", "a"], ["2", "b"]] from rfl]; simp)⟩

/-! ## C6: flush and the buffered-writer error -/

/-- Flushing an error-free writer over a failing sink records the sink's
error. -/
theorem flushW_werr_of_sink_failure (w : CSVWriter) (e : String)
    (hw : w.werr = none) (hs : w.sinkErr = some e) : w.flushW.werr = some e := by
  unfold CSVWriter.flushW
  rw [hw]
  dsimp only
  rw [hs]

/-- The return value of `StoreTable` is fully determined by introspection,
row reading, and the `PutObject` outcome — the CSV writer's buffered error
state never enters it. -/
theorem storeTable_result_char (conn : DBConn) (putErr : Option String)
    (pfx : String) (tableName : TableName) (limit : Int) (sinkErr : Option String) :
    (StoreTable conn putErr pfx tableName limit sinkErr).result =
      match (RetrieveColumnTypes conn tableName).val with
      | .error e => .error e
      | .ok _ =>
        match (ReadTable conn tableName limit).val with
        | .error e2 => .error e2
        | .ok _ =>
          match putErr with
          | some e3 => .error e3
          | none => .ok () := by
  unfold StoreTable
  cases hrc : (RetrieveColumnTypes conn tableName).val with
  | error e => rfl
  | ok cts =>
    dsimp only
    rw [writeColumnNames_fresh]
    dsimp only
    cases hrt : (ReadTable conn tableName limit).val with
    | error e2 =>
      rw [writeTableContent_of_error conn _ tableName _ limit e2 hrt]
    | ok rows =>
      rw [writeTableContent_of_ok conn _ tableName _ limit rows hrt rfl]
      dsimp only
      cases putErr <;> rfl

/-- After a successful header, content and read phase, a failing file sink
makes `StoreTableIntoFile` return the flush error reported by
`writer.Error()`. -/
theorem storeTableIntoFile_flush_error (conn : DBConn) (env : FileEnv)
    (tableName : TableName) (limit : Int) (e : String)
    (columnTypes : List ColumnType) (rows : List M)
    (hcreate : env.createErr = none) (hsink : env.sinkErr = some e)
    (hrc : (RetrieveColumnTypes conn tableName).val = .ok columnTypes)
    (hrt : (ReadTable conn tableName limit).val = .ok rows) :
    (StoreTableIntoFile conn env tableName limit).result = .error e := by
  unfold StoreTableIntoFile
  rw [hrc]
  dsimp only
  rw [hcreate]
  dsimp only
  rw [writeColumnNames_fresh]
  dsimp only
  rw [writeTableContent_of_ok conn _ tableName _ limit rows hrt rfl]
  dsimp only
  rw [flushW_werr_of_sink_failure _ e rfl hsink]

/-- C6 (amended): after writing the header and all data records,
`StoreTableIntoFile` flushes and surfaces the buffered-writer error to its
caller, but `StoreTable` flushes without consulting `writer.Error()`: its
return value is the same as with a sink that never fails, so a buffered-writer
error is silently dropped on the object-store path. -/
theorem flush_error_surfaced_only_by_file_sink (conn : DBConn) (env : FileEnv)
    (tableName : TableName) (limit : Int) (e : String)
    (columnTypes : List ColumnType) (rows : List M)
    (hcreate : env.createErr = none) (hsink : env.sinkErr = some e)
    (hrc : (RetrieveColumnTypes conn tableName).val = .ok columnTypes)
    (hrt : (ReadTable conn tableName limit).val = .ok rows) :
    (StoreTableIntoFile conn env tableName limit).result = .error e ∧
    ∀ (putErr : Option String) (pfx : String) (sinkErr : Option String),
      (StoreTable conn putErr pfx tableName limit sinkErr).result =
        (StoreTable conn putErr pfx tableName limit none).result := by
  refine ⟨storeTableIntoFile_flush_error conn env tableName limit e columnTypes rows
    hcreate hsink hrc hrt, ?_⟩
  intro putErr pfx sinkErr
  rw [storeTable_result_char, storeTable_result_char]

/-- Counterexample for C6 as stated: exporting Scenario A's table `t` to the
object store through a buffer whose flush fails with `disk full` still returns
success — the records were written and flushed (the flush delivered nothing,
so the uploaded object is empty), yet no error is surfaced. -/
theorem storeTable_swallows_flush_error_cex :
    StoreTable connT none "" "t" 0 (some "disk full") =
      ⟨.ok (), [["id", "name"], ["1", "a"], ["2", "b"]], [("t.csv", "")]⟩ := rfl

/-- Witness for C6 (amended) on Scenario A's table `t` with a sink failing
with `disk full`. -/
theorem flush_error_surfaced_only_by_file_sink_witness :
    (StoreTableIntoFile connT ⟨none, some "disk full", none⟩ "t" 0).result =
      .error "disk full" ∧
    (StoreTable connT none "" "t" 0 (some "disk full")).result =
      (StoreTable connT none "" "t" 0 none).result := by
  have h := flush_error_surfaced_only_by_file_sink connT ⟨none, some "disk full", none⟩
    "t" 0 "disk full" ctsIdName
    [[("id", Value.vInt64 1), ("name", Value.vString "a")],
     [("id", Value.vInt64 2), ("name", Value.vString "b")]]
    rfl rfl rfl rfl
  exact ⟨h.1, h.2 none "" (some "disk full")⟩

/-! ## C8: table metadata export -/

/-- When every count succeeds, the metadata loop appends one
`[tableName, count]` record per table, in the given order, and runs exactly
one count query per table. -/
theorem metadataRows_success (conn : DBConn) (cnt : TableName → Int) :
    ∀ (tables : List TableName) (w : CSVWriter), w.werr = none →
      (∀ u ∈ tables, ReadRecordsCount conn u = .ok (cnt u)) →
      metadataRows conn w tables =
        ({ w with pending := w.pending ++ tables.map (fun u => [u, toString (cnt u)]) },
         .ok (), tables.map selectCountFromTable) := by
  intro tables
  induction tables with
  | nil => intro w h _; simp [metadataRows]
  | cons t rest ih =>
    intro w h hok
    have ht := hok t (List.mem_cons_self t rest)
    unfold metadataRows
    rw [ht]
    dsimp only
    rw [write_of_werr_none w _ h]
    dsimp only
    rw [ih { w with pending := w.pending ++ [[t, toString (cnt t)]] } h
      (fun u hu => hok u (List.mem_cons_of_mem t hu))]
    simp

/-- When the counts succeed up to some failing table, the metadata loop stops
at the failing table with its error, having run count queries only for the
tables up to and including it. -/
theorem metadataRows_failfast (conn : DBConn) :
    ∀ (pre : List TableName) (w : CSVWriter) (t : TableName)
      (post : List TableName) (e : String),
      w.werr = none →
      (∀ u ∈ pre, ∃ n, ReadRecordsCount conn u = .ok n) →
      ReadRecordsCount conn t = .error e →
      ∃ w2, metadataRows conn w (pre ++ t :: post) =
        (w2, .error e, (pre ++ [t]).map selectCountFromTable) := by
  intro pre
  induction pre with
  | nil =>
    intro w t post e _ _ ht
    refine ⟨w, ?_⟩
    simp only [List.nil_append, metadataRows, ht]
    rfl
  | cons p ps ih =>
    intro w t post e h hok ht
    obtain ⟨n, hp⟩ := hok p (List.mem_cons_self p ps)
    obtain ⟨w2, hw2⟩ := ih { w with pending := w.pending ++ [[p, toString n]] } t post e h
      (fun u hu => hok u (List.mem_cons_of_mem p hu)) ht
    refine ⟨w2, ?_⟩
    simp only [List.cons_append, metadataRows, hp]
    rw [write_of_werr_none w _ h]
    dsimp only
    simp only [List.append_eq, hw2]
    simp

/-- C8: `TableMetadataToCSV` writes the header `Table name,Records` and then,
per table in the given order, one CSV row with the table name and its base-10
record count; the first count error is returned at once and later tables are
not queried; and on Scenario B's tables `t1` (3 records) and `t2` (0 records)
the sink receives exactly `Table name,Records\nt1,3\nt2,0\n`. -/
theorem tableMetadataToCSV_spec :
    (∀ (conn : DBConn) (sinkErr : Option String) (pre : List TableName)
        (t : TableName) (post : List TableName) (e : String),
      (∀ u ∈ pre, ∃ n, ReadRecordsCount conn u = .ok n) →
      ReadRecordsCount conn t = .error e →
      (TableMetadataToCSV (some sinkErr) (pre ++ t :: post) conn).result = .error e ∧
      (TableMetadataToCSV (some sinkErr) (pre ++ t :: post) conn).queriesRun =
        (pre ++ [t]).map selectCountFromTable) ∧
    (∀ (conn : DBConn) (tables : List TableName) (cnt : TableName → Int),
      (∀ u ∈ tables, ReadRecordsCount conn u = .ok (cnt u)) →
      (TableMetadataToCSV (some none) tables conn).result = .ok () ∧
      (TableMetadataToCSV (some none) tables conn).writer =
        some ⟨none, [],
          ["Table name", "Records"] :: tables.map (fun u => [u, toString (cnt u)]),
          none⟩) ∧
    ((TableMetadataToCSV (some none) ["t1", "t2"] connCounts).result = .ok () ∧
     (TableMetadataToCSV (some none) ["t1", "t2"] connCounts).writer.map
        (fun w => csvRender w.flushed) = some "Table name,Records\nt1,3\nt2,0\n") := by
  refine ⟨?_, ?_, rfl, rfl⟩
  · intro conn sinkErr pre t post e hok ht
    unfold TableMetadataToCSV
    dsimp only
    rw [write_of_werr_none (newCSVWriter sinkErr) _ rfl]
    dsimp only
    obtain ⟨w2, hw2⟩ := metadataRows_failfast conn pre
      { newCSVWriter sinkErr with
        pending := (newCSVWriter sinkErr).pending ++ [["Table name", "Records"]] }
      t post e rfl hok ht
    rw [hw2]
    exact ⟨rfl, rfl⟩
  · intro conn tables cnt hok
    unfold TableMetadataToCSV
    dsimp only
    rw [write_of_werr_none (newCSVWriter none) _ rfl]
    dsimp only
    rw [metadataRows_success conn cnt tables
      { newCSVWriter none with
        pending := (newCSVWriter none).pending ++ [["Table name", "Records"]] }
      rfl hok]
    dsimp only
    constructor
    · rfl
    · unfold CSVWriter.flushW
      dsimp only
      simp [newCSVWriter]

/-- Witness for C8: over `connCounts`, counting `tbad` fails after `t1`
succeeded, so the export stops with the count error, having queried only `t1`
and `tbad`; and with the per-table counts supplied, Scenario B's run
succeeds. -/
theorem tableMetadataToCSV_spec_witness :
    ((TableMetadataToCSV (some none) (["t1"] ++ "tbad" :: ["t2"]) connCounts).result =
      .error "count failed" ∧
     (TableMetadataToCSV (some none) (["t1"] ++ "tbad" :: ["t2"]) connCounts).queriesRun =
      (["t1"] ++ ["tbad"]).map selectCountFromTable) ∧
    (TableMetadataToCSV (some none) ["t1", "t2"] connCounts).result = .ok () := by
  refine ⟨tableMetadataToCSV_spec.1 connCounts none ["t1"] "tbad" ["t2"] "count failed"
    ?_ rfl, ?_⟩
  · intro u hu
    rw [List.mem_singleton] at hu
    subst hu
    exact ⟨3, rfl⟩
  · refine (tableMetadataToCSV_spec.2.1 connCounts ["t1", "t2"]
      (fun u => if u = "t1" then 3 else 0) ?_).1
    intro u hu
    rcases List.mem_cons.mp hu with rfl | hu
    · rfl
    · rw [List.mem_singleton] at hu
      subst hu
      rfl

end Exporter
